import Mathlib

/-!
Shallow embedding of the two ad-platform extractors
(`src/amazon_ads_fetcher.py` and
`src/repl/integration-files/bing/bing_extractor.py`).

Network interaction is modelled by scripts: a paginated fetch consumes a
list of scripted page responses in order; the token endpoint, report
submit endpoint and poll endpoint are each modelled by a scripted
response value.  Items, campaigns and report records are opaque type
parameters, since the Python code never inspects their contents.
-/

namespace AmazonAds

/-- Result of one scripted page request.  `err` covers both a raised
exception during the request and a non-success HTTP status (which
`response.raise_for_status()` turns into an exception); the Python
`except` branch treats the two identically. -/
inductive SDPage (α : Type) where
  | ok (items : List α)
  | err
deriving DecidableEq

/-- How a paginated fetch in `amazon_ads_fetcher.py` returns:
`done items` is the normal `return campaigns` path, `errReturn` is the
`except` branch, which logs and executes `return []`. -/
inductive FetchOut (α : Type) where
  | done (items : List α)
  | errReturn
deriving DecidableEq

/-- The list value actually returned to the caller. -/
def FetchOut.returned {α : Type} : FetchOut α → List α
  | .done l => l
  | .errReturn => []

/-- Loop body of `get_sponsored_display_campaigns` (offset pagination,
page size 100).  Mirrors: issue request; on exception return `[]`;
`if not data: break`; `campaigns.extend(data)`; `if len(data) < 100:
break`; `params["startIndex"] += 100` and loop.  The result also counts
the number of requests issued; `none` is a model artifact meaning the
script was exhausted while the loop still wanted another page. -/
def sdFetchAux {α : Type} (acc : List α) :
    List (SDPage α) → Nat → Option (FetchOut α × Nat)
  | [], _ => none
  | .err :: _, calls => some (.errReturn, calls + 1)
  | .ok [] :: _, calls => some (.done acc, calls + 1)
  | .ok data :: rest, calls =>
    if data.length < 100 then some (.done (acc ++ data), calls + 1)
    else sdFetchAux (acc ++ data) rest (calls + 1)

/-- Model of `AmazonAdsFetcher.get_sponsored_display_campaigns`, over a scripted
sequence of page responses. -/
def get_sponsored_display_campaigns {α : Type} (script : List (SDPage α)) :
    Option (FetchOut α × Nat) :=
  sdFetchAux [] script 0

/-- Body of one response of the Sponsored Brands / Sponsored Products
list endpoint: the optional `campaigns` array and the optional
`nextToken` field. -/
structure SBBody (α : Type) where
  campaigns : Option (List α)
  nextToken : Option String
deriving DecidableEq

/-- One scripted response for continuation-token pagination. -/
inductive SBPage (α : Type) where
  | ok (body : SBBody α)
  | err
deriving DecidableEq

/-- Loop body of `get_sponsored_brands_campaigns` (and the identical
`get_sponsored_products_campaigns`).  Mirrors: on exception return `[]`;
`if "campaigns" in data: campaigns.extend(data["campaigns"])`;
`if "nextToken" not in data or not data["nextToken"]: break`;
`payload["nextToken"] = data["nextToken"]` and loop. -/
def sbFetchAux {α : Type} (acc : List α) :
    List (SBPage α) → Nat → Option (FetchOut α × Nat)
  | [], _ => none
  | .err :: _, calls => some (.errReturn, calls + 1)
  | .ok b :: rest, calls =>
    let acc' := acc ++ b.campaigns.getD []
    match b.nextToken with
    | none => some (.done acc', calls + 1)
    | some t =>
      if t = "" then some (.done acc', calls + 1)
      else sbFetchAux acc' rest (calls + 1)

/-- Model of `AmazonAdsFetcher.get_sponsored_brands_campaigns`, over a scripted
sequence of page responses. -/
def get_sponsored_brands_campaigns {α : Type} (script : List (SBPage α)) :
    Option (FetchOut α × Nat) :=
  sbFetchAux [] script 0

/-- Body of one response of the attribution report endpoint: the
optional `reports` array and the optional `cursorId` field. -/
structure AttrBody (α : Type) where
  reports : Option (List α)
  cursorId : Option String
deriving DecidableEq

/-- One scripted response for cursor pagination: either an HTTP response
with its status code and JSON body, or an exception raised by the
request itself. -/
inductive AttrPage (α : Type) where
  | resp (status : Nat) (body : AttrBody α)
  | netErr
deriving DecidableEq

/-- Statuses for which `response.raise_for_status()` raises: exactly 4xx and 5xx. -/
def isErrStatus (s : Nat) : Prop := 400 ≤ s ∧ s < 600

instance (s : Nat) : Decidable (isErrStatus s) := by
  unfold isErrStatus; infer_instance

/-- Loop body of `get_attribution_performance_campaign`.  Mirrors: on
exception return `[]`; `if response.status_code == 400: break` (before
`raise_for_status`, so 400 is a clean terminal); `raise_for_status()`;
`if "reports" in data: reports.extend(data["reports"])`;
`if "cursorId" not in data or not data["cursorId"]: break`;
`payload["cursorId"] = data["cursorId"]` and loop. -/
def attrFetchAux {α : Type} (acc : List α) :
    List (AttrPage α) → Nat → Option (FetchOut α × Nat)
  | [], _ => none
  | .netErr :: _, calls => some (.errReturn, calls + 1)
  | .resp s b :: rest, calls =>
    if s = 400 then some (.done acc, calls + 1)
    else if isErrStatus s then some (.errReturn, calls + 1)
    else
      let acc' := acc ++ b.reports.getD []
      match b.cursorId with
      | none => some (.done acc', calls + 1)
      | some c =>
        if c = "" then some (.done acc', calls + 1)
        else attrFetchAux acc' rest (calls + 1)

/-- Model of `AmazonAdsFetcher.get_attribution_performance_campaign`, over a
scripted sequence of page responses. -/
def get_attribution_performance_campaign {α : Type}
    (script : List (AttrPage α)) : Option (FetchOut α × Nat) :=
  attrFetchAux [] script 0

/-- The `REGION_URLS` class dictionary. -/
def REGION_URLS (r : String) : Option String :=
  if r = "NA" then some "https://advertising-api.amazon.com"
  else if r = "EU" then some "https://advertising-api-eu.amazon.com"
  else if r = "FE" then some "https://advertising-api-fe.amazon.com"
  else none

/-- Model of the base-URL selection in `AmazonAdsFetcher.__init__`:
`self.REGION_URLS.get(region, self.REGION_URLS["NA"])`. -/
def initBaseUrl (region : String) : Option String :=
  match REGION_URLS region with
  | some u => some u
  | none => REGION_URLS "NA"

/-- Body of the OAuth token endpoint response: HTTP status and the
optional `access_token` field of the JSON payload. -/
structure TokenResp where
  status : Nat
  accessToken : Option String
deriving DecidableEq

/-- Model of `AmazonAdsFetcher.refresh_access_token`, over a scripted token
endpoint (`Except.error` = the POST raised).  The function takes the
current `self.access_token` and returns (result, new `self.access_token`,
number of network calls made).  Mirrors: POST (always — there is no
cache check); `raise_for_status()` (the `except` branch logs and
re-raises); `self.access_token = data.get("access_token")` — `None` when
the field is absent — and `return self.access_token`. -/
def refresh_access_token (state : Option String)
    (endpoint : Except Unit TokenResp) :
    Except Unit (Option String) × Option String × Nat :=
  match endpoint with
  | .error _ => (.error (), state, 1)
  | .ok r =>
    if isErrStatus r.status then (.error (), state, 1)
    else (.ok r.accessToken, r.accessToken, 1)

end AmazonAds

namespace BingAds

open AmazonAds (TokenResp isErrStatus)

/-- The token-acquisition part of `BingAdsExtractor.get_access_token`
(the code after the cache check): POST to the token URL;
`raise_for_status()`; `self.access_token = token_data["access_token"]`
(a `KeyError`, i.e. a raised exception, when the field is absent).
Returns (result, new `self.access_token`, network calls made). -/
def acquireToken (state : Option String) (endpoint : Except Unit TokenResp) :
    Except Unit String × Option String × Nat :=
  match endpoint with
  | .error _ => (.error (), state, 1)
  | .ok r =>
    if isErrStatus r.status then (.error (), state, 1)
    else
      match r.accessToken with
      | none => (.error (), state, 1)
      | some t => (.ok t, some t, 1)

/-- Model of `BingAdsExtractor.get_access_token`: `if self.access_token: return
self.access_token` — a Python truthiness test, so `None` and the empty
string both fall through to a fresh acquisition. -/
def get_access_token (state : Option String)
    (endpoint : Except Unit TokenResp) :
    Except Unit String × Option String × Nat :=
  match state with
  | some t => if t = "" then acquireToken state endpoint else (.ok t, state, 0)
  | none => acquireToken state endpoint

/-- Body of the `SubmitGenerateReport` response: HTTP status and the
optional `ReportRequestId` field. -/
structure SubmitResp where
  status : Nat
  reportRequestId : Option String
deriving DecidableEq

/-- Model of `BingAdsExtractor.submit_performance_report`, over a scripted submit
endpoint.  Mirrors: POST; `raise_for_status()`; `return
data.get("ReportRequestId")` — `None` when the field is absent, with no
error raised. -/
def submit_performance_report (endpoint : Except Unit SubmitResp) :
    Except Unit (Option String) :=
  match endpoint with
  | .error _ => .error ()
  | .ok r =>
    if isErrStatus r.status then .error ()
    else .ok r.reportRequestId

/-- One scripted reply of the `PollGenerateReport` endpoint: the wall
time the poll call itself consumed, the `Status` field and the
`ReportDownloadUrl` field of `ReportRequestStatus` (each possibly
absent). -/
structure PollReply where
  duration : Nat
  status : Option String
  downloadUrl : Option String

/-- Outcome of the poll loop of `get_performance_report`. -/
inductive PollOutcome where
  | success (downloadUrl : Option String)
  | generationError
  | timedOut
deriving DecidableEq

/-- The poll loop of `BingAdsExtractor.get_performance_report`:
`while time.time() - start_time < max_wait_seconds:` — the elapsed
wall-clock time is compared with the budget BEFORE each poll; then one
poll (taking `duration` wall time), then the `Status` checks
(`"Success"` downloads, `"Error"` raises), then `time.sleep(10)`.
`elapsed` is the wall time since `start_time`; `n` numbers the polls
already made, and the scripted endpoint maps the poll number to its
reply.  Returns the outcome and the total number of polls issued. -/
def pollLoop (script : Nat → PollReply) (maxWait : Nat) :
    Nat → Nat → PollOutcome × Nat
  | elapsed, n =>
    if h : elapsed < maxWait then
      let r := script n
      if r.status = some "Success" then (.success r.downloadUrl, n + 1)
      else if r.status = some "Error" then (.generationError, n + 1)
      else pollLoop script maxWait (elapsed + r.duration + 10) (n + 1)
    else (.timedOut, n)
termination_by elapsed _ => maxWait - elapsed
decreasing_by simp_wf; omega

/-! ### Report download and decoding (`BingAdsExtractor.download_report`)

Payloads are byte lists (`List Nat`, each entry a byte value).  The gzip
container is modelled abstractly: a valid gzip stream is the two magic
bytes `1f 8b` followed by an encoding of the payload, which the model
takes to be the payload itself — the DEFLATE algorithm is out of scope,
and only round-tripping (`decompress (compress b) = b`) and magic-byte
detection matter here.  `gzip.decompress` raises `BadGzipFile` (caught
by the `except (gzip.BadGzipFile, OSError)` branch) exactly when the
first two bytes are not the gzip magic. -/

/-- The two gzip magic bytes. -/
def gzipMagic : List Nat := [0x1f, 0x8b]

/-- Abstract `gzip.compress`. -/
def gzipCompress (b : List Nat) : List Nat := gzipMagic ++ b

/-- Abstract `gzip.decompress`: magic-byte check, then the inverse of
`gzipCompress`.  `Except.error` is `BadGzipFile`. -/
def gzipDecompress (b : List Nat) : Except Unit (List Nat) :=
  if b.take 2 = gzipMagic then .ok (b.drop 2) else .error ()

/-- UTF-8 encoding of one code point (arithmetic form of the standard
encoder; Lean `Char` excludes surrogates, as Python's encoder rejects
them). -/
def utf8EncodeChar (c : Char) : List Nat :=
  let n := c.toNat
  if n < 0x80 then [n]
  else if n < 0x800 then [0xC0 + n / 0x40, 0x80 + n % 0x40]
  else if n < 0x10000 then
    [0xE0 + n / 0x1000, 0x80 + n / 0x40 % 0x40, 0x80 + n % 0x40]
  else
    [0xF0 + n / 0x40000, 0x80 + n / 0x1000 % 0x40,
     0x80 + n / 0x40 % 0x40, 0x80 + n % 0x40]

/-- UTF-8 encoding of a text (a Python `str` is a sequence of code
points, modelled as `List Char`). -/
def utf8Encode : List Char → List Nat
  | [] => []
  | c :: cs => utf8EncodeChar c ++ utf8Encode cs

/-- Is `b` a UTF-8 continuation byte (`10xxxxxx`)? -/
def isCont (b : Nat) : Bool := 0x80 ≤ b && b < 0xC0

/-- UTF-8 decoding of a byte list (`bytes.decode("utf-8")` without the
BOM handling; the model reassembles code points from lead and
continuation bytes and fails on malformed sequences — Python's extra
rejection of overlong and surrogate forms is not modelled, as no claim
depends on it). -/
def utf8DecodeAux : List Nat → Option (List Char)
  | [] => some []
  | b :: rest =>
    if b < 0x80 then
      (utf8DecodeAux rest).map (fun cs => Char.ofNat b :: cs)
    else if b < 0xC0 then none
    else if b < 0xE0 then
      match rest with
      | b1 :: rest1 =>
        if isCont b1 then
          (utf8DecodeAux rest1).map
            (fun cs => Char.ofNat ((b - 0xC0) * 0x40 + (b1 - 0x80)) :: cs)
        else none
      | [] => none
    else if b < 0xF0 then
      match rest with
      | b1 :: b2 :: rest2 =>
        if isCont b1 && isCont b2 then
          (utf8DecodeAux rest2).map
            (fun cs =>
              Char.ofNat
                (((b - 0xE0) * 0x40 + (b1 - 0x80)) * 0x40 + (b2 - 0x80)) :: cs)
        else none
      | _ => none
    else if b < 0xF8 then
      match rest with
      | b1 :: b2 :: b3 :: rest3 =>
        if isCont b1 && isCont b2 && isCont b3 then
          (utf8DecodeAux rest3).map
            (fun cs =>
              Char.ofNat
                ((((b - 0xF0) * 0x40 + (b1 - 0x80)) * 0x40 + (b2 - 0x80)) *
                    0x40 + (b3 - 0x80)) :: cs)
        else none
      | _ => none
    else none

/-- Model of `bytes.decode("utf-8-sig")`: strip one leading UTF-8 byte-order
mark, when present, then decode. -/
def utf8SigDecode (bs : List Nat) : Option (List Char) :=
  utf8DecodeAux (if bs.take 3 = [0xEF, 0xBB, 0xBF] then bs.drop 3 else bs)

/-- Split a character list at every occurrence of `sep` (like Python's
`str.split(sep)`). -/
def splitOnChar (sep : Char) : List Char → List (List Char)
  | [] => [[]]
  | c :: cs =>
    match splitOnChar sep cs with
    | [] => [[]]
    | g :: gs => if c = sep then [] :: g :: gs else (c :: g) :: gs

/-- One decoded CSV record: the header fields paired with the row's
cells, in column order (the insertion order of `csv.DictReader`'s row
dictionaries). -/
def CsvRecord : Type := List (List Char × List Char)

/-- Model of `csv.DictReader` over the decoded text: the first non-empty line is
the header, every following non-empty line yields one record, in row
order.  (Simplifications of stdlib behaviour that no claim depends on:
quoted cells and `restkey`/`restval` padding for ragged rows are not
modelled — `List.zip` truncates instead.) -/
def csvParse (text : List Char) : List CsvRecord :=
  let rows := (splitOnChar (Char.ofNat 10) text).filter
    (fun r => !r.isEmpty)
  match rows with
  | [] => []
  | header :: dataRows =>
    let fields := splitOnChar (Char.ofNat 44) header
    dataRows.map (fun r => fields.zip (splitOnChar (Char.ofNat 44) r))

/-- Model of `BingAdsExtractor.download_report`, over the downloaded payload
bytes.  Mirrors: `try: decompressed = gzip.decompress(content);
text_content = decompressed.decode("utf-8-sig") except (BadGzipFile,
OSError): text_content = content.decode("utf-8-sig")`; then
`list(csv.DictReader(StringIO(text_content)))`.  A `UnicodeDecodeError`
is not in the caught tuple, so a decode failure propagates
(`Except.error`) on either path. -/
def download_report (payload : List Nat) : Except Unit (List CsvRecord) :=
  match gzipDecompress payload with
  | .ok decompressed =>
    match utf8SigDecode decompressed with
    | some text => .ok (csvParse text)
    | none => .error ()
  | .error _ =>
    match utf8SigDecode payload with
    | some text => .ok (csvParse text)
    | none => .error ()

/-! ### The extraction orchestrator (`BingAdsExtractor.extract_all`)

The network is an environment of scripted oracles, one per endpoint
method.  `CallErr.tokenErr` marks a failure of `get_access_token`
surfacing through the first authenticated call (`get_users` builds its
headers via `get_access_token`, so a token failure propagates out of
it); `CallErr.httpErr` is any other request exception or non-success
status.  Campaign items and report records are opaque. -/

/-- Which exception a scripted call raised. -/
inductive CallErr where
  | tokenErr
  | httpErr
deriving DecidableEq

/-- One element of the `get_users` response (the fields `extract_all`
reads: `user.get("Id")`). -/
structure BUser where
  id : Option Nat
deriving DecidableEq

/-- One element of the `get_accounts` response (the fields `extract_all`
reads). -/
structure BAccount where
  id : Option Nat
  parentCustomerId : Option Nat
  name : Option String
deriving DecidableEq

/-- Scripted oracles for the four calls `extract_all` makes. -/
structure BingEnv (α β : Type) where
  users : Except CallErr (List BUser)
  accounts : Nat → Except CallErr (List BAccount)
  campaigns : Nat → Nat → Except CallErr (List α)
  performance : Nat → Except CallErr (List β)

/-- One entry of `result["performance_reports"]` (the
`report_type` field is the constant `"campaign_performance"` and is
omitted). -/
structure PerfEntry (β : Type) where
  accountId : Nat
  accountName : Option String
  data : List β
deriving DecidableEq

/-- The aggregated result document built by `extract_all` (the constant
`extracted_at` timestamp is omitted).  Campaigns are stored tagged with
the `AccountId` and `CustomerId` that `get_campaigns` writes into each
campaign dict. -/
structure ExtractResult (α β : Type) where
  users : List BUser
  accounts : List BAccount
  campaigns : List (Nat × Nat × α)
  performanceReports : List (PerfEntry β)
deriving DecidableEq

/-- The inner account loop body of `extract_all`.  Mirrors: `account_id
= account.get("Id")`, `customer_id = account.get("ParentCustomerId")`,
`if not account_id or not customer_id: continue` (Python truthiness, so
an id of 0 is also skipped); then `get_campaigns` in a `try` that logs
and continues on failure; then, when requested, `get_performance_report`
in a `try` that logs and continues on failure. -/
def processAccount {α β : Type} (env : BingEnv α β) (includePerf : Bool)
    (acc : ExtractResult α β) (a : BAccount) : ExtractResult α β :=
  match a.id, a.parentCustomerId with
  | some aid, some cid =>
    if aid = 0 || cid = 0 then acc
    else
      let acc1 :=
        match env.campaigns aid cid with
        | .ok cs =>
          { acc with campaigns := acc.campaigns ++ cs.map (fun c => (aid, cid, c)) }
        | .error _ => acc
      if includePerf then
        match env.performance aid with
        | .ok d =>
          { acc1 with performanceReports :=
              acc1.performanceReports ++ [⟨aid, a.name, d⟩] }
        | .error _ => acc1
      else acc1
  | _, _ => acc

/-- The outer user loop body of `extract_all`.  Mirrors: `user_id =
user.get("Id")`, `if not user_id: continue`; `accounts =
self.get_accounts(int(user_id))` — NOT inside any `try`, so a failure
propagates and aborts the whole run; `result["accounts"].extend(...)`;
then the account loop. -/
def processUser {α β : Type} (env : BingEnv α β) (includePerf : Bool)
    (acc : ExtractResult α β) (u : BUser) :
    Except CallErr (ExtractResult α β) :=
  match u.id with
  | none => .ok acc
  | some uid =>
    if uid = 0 then .ok acc
    else
      match env.accounts uid with
      | .error e => .error e
      | .ok accounts =>
        .ok (accounts.foldl (processAccount env includePerf)
          { acc with accounts := acc.accounts ++ accounts })

/-- Model of `BingAdsExtractor.extract_all`: fetch users (a token or HTTP failure
here propagates — `get_users` is not inside any `try` and it is the call
that first acquires the token), then loop over users and their
accounts. -/
def extract_all {α β : Type} (env : BingEnv α β) (includePerf : Bool) :
    Except CallErr (ExtractResult α β) :=
  match env.users with
  | .error e => .error e
  | .ok users => users.foldlM (processUser env includePerf) ⟨users, [], [], []⟩

/-- Scripted environment in which token acquisition succeeds (the users
call answers normally) but the accounts call for the single user fails
with an HTTP error. -/
def accountsFailEnv : BingEnv Nat Nat where
  users := .ok [⟨some 1⟩]
  accounts := fun _ => .error .httpErr
  campaigns := fun _ _ => .ok []
  performance := fun _ => .ok []

/-- Scripted environment exercising entity-level failure containment:
one user owning three accounts A (id 10), B (id 20) and C (id 30) under
customer 7; the campaign fetch fails for B only, returning `la` for A
and `lc` for C. -/
def triEnv {α : Type} (la lc : List α) : BingEnv α Nat where
  users := .ok [⟨some 1⟩]
  accounts := fun uid =>
    if uid = 1 then
      .ok [⟨some 10, some 7, some "A"⟩, ⟨some 20, some 7, some "B"⟩,
           ⟨some 30, some 7, some "C"⟩]
    else .ok []
  campaigns := fun aid _ =>
    if aid = 10 then .ok la
    else if aid = 20 then .error .httpErr
    else .ok lc
  performance := fun _ => .ok []

end BingAds

/-! ## Theorems -/

namespace AmazonAds

/-- Skipping a prefix of full (length ≥ 100) offset pages: the loop
appends each page and keeps calling. -/
theorem sdFetchAux_skip_full {α : Type} (qs : List (List α))
    (script : List (SDPage α)) (acc : List α) (calls : Nat)
    (h : ∀ q ∈ qs, 100 ≤ q.length) :
    sdFetchAux acc (qs.map SDPage.ok ++ script) calls
      = sdFetchAux (acc ++ qs.flatten) script (calls + qs.length) := by
  induction qs generalizing acc calls with
  | nil => simp
  | cons q qs ih =>
    have hq : 100 ≤ q.length := h q (by simp)
    obtain ⟨a, q', rfl⟩ : ∃ a q', q = a :: q' := by
      cases q with
      | nil => simp at hq
      | cons a q' => exact ⟨a, q', rfl⟩
    simp only [List.map_cons, List.cons_append, sdFetchAux, List.append_eq]
    rw [if_neg (by omega)]
    rw [ih (acc ++ (a :: q')) (calls + 1) (fun q hq' => h q (by simp [hq']))]
    rw [List.flatten_cons, ← List.append_assoc]
    have harith : calls + 1 + qs.length = calls + (qs.length + 1) := by omega
    rw [harith, List.length_cons]

/-- Skipping a prefix of continuation-token pages whose `nextToken` is
present and non-empty: the loop appends each page's campaigns (an absent
`campaigns` field contributes nothing) and keeps calling. -/
theorem sbFetchAux_skip_pages {α : Type} (rs : List (SBBody α))
    (script : List (SBPage α)) (acc : List α) (calls : Nat)
    (h : ∀ b ∈ rs, ∃ t, b.nextToken = some t ∧ t ≠ "") :
    sbFetchAux acc (rs.map SBPage.ok ++ script) calls
      = sbFetchAux (acc ++ (rs.map (fun b => b.campaigns.getD [])).flatten)
          script (calls + rs.length) := by
  induction rs generalizing acc calls with
  | nil => simp
  | cons b rs ih =>
    obtain ⟨t, ht, hne⟩ := h b (by simp)
    simp only [List.map_cons, List.cons_append, sbFetchAux, ht,
      List.append_eq]
    rw [if_neg hne]
    rw [ih (acc ++ b.campaigns.getD []) (calls + 1)
      (fun b' hb' => h b' (by simp [hb']))]
    rw [List.flatten_cons, ← List.append_assoc]
    have harith : calls + 1 + rs.length = calls + (rs.length + 1) := by omega
    rw [harith, List.length_cons]

/-- Skipping a prefix of cursor pages with success statuses and a
present, non-empty `cursorId`: the loop appends each page's reports and
keeps calling. -/
theorem attrFetchAux_skip_pages {α : Type} (rs : List (Nat × AttrBody α))
    (script : List (AttrPage α)) (acc : List α) (calls : Nat)
    (h : ∀ p ∈ rs, p.1 < 400 ∧ ∃ c, p.2.cursorId = some c ∧ c ≠ "") :
    attrFetchAux acc (rs.map (fun p => AttrPage.resp p.1 p.2) ++ script) calls
      = attrFetchAux (acc ++ (rs.map (fun p => p.2.reports.getD [])).flatten)
          script (calls + rs.length) := by
  induction rs generalizing acc calls with
  | nil => simp
  | cons p rs ih =>
    obtain ⟨hs, c, hc, hne⟩ := h p (by simp)
    simp only [List.map_cons, List.cons_append, attrFetchAux, hc,
      List.append_eq]
    rw [if_neg (by omega), if_neg (by simp only [isErrStatus]; omega),
      if_neg hne]
    rw [ih (acc ++ p.2.reports.getD []) (calls + 1)
      (fun p' hp' => h p' (by simp [hp']))]
    rw [List.flatten_cons, ← List.append_assoc]
    have harith : calls + 1 + rs.length = calls + (rs.length + 1) := by omega
    rw [harith, List.length_cons]

end AmazonAds

namespace AmazonAds

/-- C1: for every scripted sequence of page responses, each paginated
fetch — offset (Sponsored Display), continuation-token (Sponsored
Brands/Products) and cursor (attribution reports) — returns exactly the
concatenation of every page's item list in response-arrival order (no
de-duplication, no re-ordering), and stops issuing calls exactly at the
documented termination condition: a page shorter than the page size 100
(including the empty page) for the offset variant, an absent or empty
`nextToken` for the token variant, and an absent or empty `cursorId` for
the cursor variant.  Pages after the terminal one (`rest`) are never
requested: the call count is the length of the consumed prefix. -/
theorem pagination_returns_concat_and_stops_at_termination :
    (∀ (α : Type) (qs : List (List α)) (last : List α)
        (rest : List (SDPage α)),
      (∀ q ∈ qs, 100 ≤ q.length) → last.length < 100 →
      get_sponsored_display_campaigns
          (qs.map SDPage.ok ++ SDPage.ok last :: rest)
        = some (.done (qs.flatten ++ last), qs.length + 1)) ∧
    (∀ (α : Type) (rs : List (SBBody α)) (last : SBBody α)
        (rest : List (SBPage α)),
      (∀ b ∈ rs, ∃ t, b.nextToken = some t ∧ t ≠ "") →
      (last.nextToken = none ∨ last.nextToken = some "") →
      get_sponsored_brands_campaigns
          (rs.map SBPage.ok ++ SBPage.ok last :: rest)
        = some (.done ((rs.map (fun b => b.campaigns.getD [])).flatten
            ++ last.campaigns.getD []), rs.length + 1)) ∧
    (∀ (α : Type) (rs : List (Nat × AttrBody α)) (s : Nat)
        (last : AttrBody α) (rest : List (AttrPage α)),
      (∀ p ∈ rs, p.1 < 400 ∧ ∃ c, p.2.cursorId = some c ∧ c ≠ "") →
      s < 400 →
      (last.cursorId = none ∨ last.cursorId = some "") →
      get_attribution_performance_campaign
          (rs.map (fun p => AttrPage.resp p.1 p.2)
            ++ AttrPage.resp s last :: rest)
        = some (.done ((rs.map (fun p => p.2.reports.getD [])).flatten
            ++ last.reports.getD []), rs.length + 1)) := by
  refine ⟨?_, ?_, ?_⟩
  · intro α qs last rest h hl
    unfold get_sponsored_display_campaigns
    rw [sdFetchAux_skip_full qs (SDPage.ok last :: rest) [] 0 h]
    cases last with
    | nil => simp [sdFetchAux]
    | cons a l =>
      simp only [sdFetchAux, List.nil_append, Nat.zero_add]
      rw [if_pos hl]
  · intro α rs last rest h hl
    unfold get_sponsored_brands_campaigns
    rw [sbFetchAux_skip_pages rs (SBPage.ok last :: rest) [] 0 h]
    rcases hl with hl | hl <;>
      simp [sbFetchAux, hl]
  · intro α rs s last rest h hs hl
    unfold get_attribution_performance_campaign
    rw [attrFetchAux_skip_pages rs (AttrPage.resp s last :: rest) [] 0 h]
    have h400 : ¬s = 400 := by omega
    have herr : ¬isErrStatus s := by simp only [isErrStatus]; omega
    rcases hl with hl | hl <;>
      simp [attrFetchAux, hl, h400, herr]

/-- Witness for C1: a two-page offset run (100 items then 40 items)
returns the 140 items in order after exactly two calls; a token run
whose second page has an empty `nextToken` returns both pages' items
after exactly two calls; a cursor run whose first page has no `cursorId`
returns that page's items after exactly one call — in each case a
further scripted page is left unrequested. -/
theorem pagination_returns_concat_witness :
    get_sponsored_display_campaigns
        ([List.replicate 100 (0 : Nat)].map SDPage.ok
          ++ SDPage.ok (List.replicate 40 1) :: [SDPage.err])
      = some (.done (List.replicate 100 0 ++ List.replicate 40 1), 2) ∧
    get_sponsored_brands_campaigns
        ([SBBody.mk (some [5, 6]) (some "tok")].map SBPage.ok
          ++ SBPage.ok (SBBody.mk (some [(7 : Nat)]) none) :: [SBPage.err])
      = some (.done ([5, 6] ++ [7]), 2) ∧
    get_attribution_performance_campaign
        (([] : List (Nat × AttrBody Nat)).map (fun p => AttrPage.resp p.1 p.2)
          ++ AttrPage.resp 200 (AttrBody.mk (some [9]) (some "")) :: [AttrPage.netErr])
      = some (.done ([] ++ [9]), 1) := by
  refine ⟨?_, ?_, ?_⟩
  · have h := pagination_returns_concat_and_stops_at_termination.1 Nat
      [List.replicate 100 0] (List.replicate 40 1) [SDPage.err]
      (by intro q hq
          simp only [List.mem_singleton] at hq
          subst hq
          simp)
      (by simp)
    simpa using h
  · have h := pagination_returns_concat_and_stops_at_termination.2.1 Nat
      [SBBody.mk (some [5, 6]) (some "tok")]
      (SBBody.mk (some [7]) none) [SBPage.err]
      (by intro b hb
          simp only [List.mem_singleton] at hb
          subst hb
          exact ⟨"tok", rfl, by decide⟩)
      (Or.inl rfl)
    simpa using h
  · have h := pagination_returns_concat_and_stops_at_termination.2.2 Nat
      [] 200 (AttrBody.mk (some [9]) (some "")) [AttrPage.netErr]
      (by intro p hp; simp at hp)
      (by omega)
      (Or.inr rfl)
    simpa using h

end AmazonAds

namespace AmazonAds

/-- Counterexample to C2: in the offset fetch, page 1 succeeds with 100
items and the request for page 2 fails, yet the function returns the
empty list — not the 100 items accumulated from the pages successfully
fetched before the failure, as the claim states. -/
theorem page_failure_discards_accumulated_items :
    get_sponsored_display_campaigns
        [SDPage.ok (List.replicate 100 (0 : Nat)), SDPage.err]
      = some (.errReturn, 2) ∧
    (FetchOut.errReturn : FetchOut Nat).returned = [] ∧
    List.replicate 100 (0 : Nat) ≠ [] := by
  refine ⟨?_, rfl, by simp⟩
  show sdFetchAux [] _ 0 = _
  rw [show ([SDPage.ok (List.replicate 100 (0 : Nat)), SDPage.err]
      = [List.replicate 100 (0 : Nat)].map SDPage.ok ++ [SDPage.err]) from rfl]
  rw [sdFetchAux_skip_full [List.replicate 100 0] [SDPage.err] [] 0
    (by intro q hq; simp only [List.mem_singleton] at hq; subst hq; simp)]
  rfl

/-- C2 as amended: if the request for some page fails (an exception or a
non-success HTTP status — for the attribution fetch, any 4xx/5xx status
other than its special-cased 400), the fetch aborts at that page, logs
the error, and returns the EMPTY list, discarding the items accumulated
from the pages successfully fetched before the failure. -/
theorem page_failure_aborts_with_empty_result :
    (∀ (α : Type) (qs : List (List α)) (rest : List (SDPage α)),
      (∀ q ∈ qs, 100 ≤ q.length) →
      get_sponsored_display_campaigns (qs.map SDPage.ok ++ SDPage.err :: rest)
        = some (.errReturn, qs.length + 1)) ∧
    (∀ (α : Type) (rs : List (SBBody α)) (rest : List (SBPage α)),
      (∀ b ∈ rs, ∃ t, b.nextToken = some t ∧ t ≠ "") →
      get_sponsored_brands_campaigns (rs.map SBPage.ok ++ SBPage.err :: rest)
        = some (.errReturn, rs.length + 1)) ∧
    (∀ (α : Type) (rs : List (Nat × AttrBody α)) (rest : List (AttrPage α)),
      (∀ p ∈ rs, p.1 < 400 ∧ ∃ c, p.2.cursorId = some c ∧ c ≠ "") →
      get_attribution_performance_campaign
          (rs.map (fun p => AttrPage.resp p.1 p.2) ++ AttrPage.netErr :: rest)
        = some (.errReturn, rs.length + 1)) ∧
    (∀ (α : Type) (rs : List (Nat × AttrBody α)) (s : Nat) (b : AttrBody α)
        (rest : List (AttrPage α)),
      (∀ p ∈ rs, p.1 < 400 ∧ ∃ c, p.2.cursorId = some c ∧ c ≠ "") →
      400 < s → s < 600 →
      get_attribution_performance_campaign
          (rs.map (fun p => AttrPage.resp p.1 p.2) ++ AttrPage.resp s b :: rest)
        = some (.errReturn, rs.length + 1)) := by
  refine ⟨?_, ?_, ?_, ?_⟩
  · intro α qs rest h
    unfold get_sponsored_display_campaigns
    rw [sdFetchAux_skip_full qs (SDPage.err :: rest) [] 0 h]
    simp [sdFetchAux]
  · intro α rs rest h
    unfold get_sponsored_brands_campaigns
    rw [sbFetchAux_skip_pages rs (SBPage.err :: rest) [] 0 h]
    simp [sbFetchAux]
  · intro α rs rest h
    unfold get_attribution_performance_campaign
    rw [attrFetchAux_skip_pages rs (AttrPage.netErr :: rest) [] 0 h]
    simp [attrFetchAux]
  · intro α rs s b rest h hs1 hs2
    unfold get_attribution_performance_campaign
    rw [attrFetchAux_skip_pages rs (AttrPage.resp s b :: rest) [] 0 h]
    simp only [attrFetchAux, Nat.zero_add]
    rw [if_neg (by omega), if_pos (by simp only [isErrStatus]; omega)]

/-- Witness for the amended C2: concrete one-good-page-then-failure runs
of all four shapes, each aborting with the empty result after two
calls (one call when the failure is on the first page). -/
theorem page_failure_aborts_witness :
    get_sponsored_display_campaigns
        ([List.replicate 100 (3 : Nat)].map SDPage.ok ++ SDPage.err :: [])
      = some (.errReturn, 2) ∧
    get_sponsored_brands_campaigns
        (([] : List (SBBody Nat)).map SBPage.ok ++ SBPage.err :: [])
      = some (.errReturn, 1) ∧
    get_attribution_performance_campaign
        ([((200 : Nat), AttrBody.mk (some [(4 : Nat)]) (some "cur"))].map
            (fun p => AttrPage.resp p.1 p.2)
          ++ AttrPage.netErr :: [])
      = some (.errReturn, 2) ∧
    get_attribution_performance_campaign
        (([] : List (Nat × AttrBody Nat)).map (fun p => AttrPage.resp p.1 p.2)
          ++ AttrPage.resp 500 (AttrBody.mk none none) :: [])
      = some (.errReturn, 1) := by
  refine ⟨?_, ?_, ?_, ?_⟩
  · have h := page_failure_aborts_with_empty_result.1 Nat
      [List.replicate 100 3] []
      (by intro q hq; simp only [List.mem_singleton] at hq; subst hq; simp)
    simpa using h
  · have h := page_failure_aborts_with_empty_result.2.1 Nat [] []
      (by intro b hb; simp at hb)
    simpa using h
  · have h := page_failure_aborts_with_empty_result.2.2.1 Nat
      [(200, AttrBody.mk (some [4]) (some "cur"))] []
      (by intro p hp
          simp only [List.mem_singleton] at hp
          subst hp
          exact ⟨by omega, "cur", rfl, by decide⟩)
    simpa using h
  · have h := page_failure_aborts_with_empty_result.2.2.2 Nat
      [] 500 (AttrBody.mk none none) []
      (by intro p hp; simp at hp)
      (by omega) (by omega)
    simpa using h

/-- C9: in the cursor-paginated attribution fetch, an HTTP 400 response
is a clean end-of-data terminal signal, not an error: the fetch stops
issuing calls there and returns the items accumulated from all previous
pages as a normal successful result. -/
theorem attribution_http_400_is_clean_termination
    (α : Type) (rs : List (Nat × AttrBody α)) (b : AttrBody α)
    (rest : List (AttrPage α))
    (h : ∀ p ∈ rs, p.1 < 400 ∧ ∃ c, p.2.cursorId = some c ∧ c ≠ "") :
    get_attribution_performance_campaign
        (rs.map (fun p => AttrPage.resp p.1 p.2) ++ AttrPage.resp 400 b :: rest)
      = some (.done ((rs.map (fun p => p.2.reports.getD [])).flatten),
          rs.length + 1) := by
  unfold get_attribution_performance_campaign
  rw [attrFetchAux_skip_pages rs (AttrPage.resp 400 b :: rest) [] 0 h]
  simp [attrFetchAux]

/-- Witness for C9: one successful cursor page, then a 400: the fetch
returns the first page's reports normally after exactly two calls. -/
theorem attribution_http_400_witness :
    get_attribution_performance_campaign
        ([((200 : Nat), AttrBody.mk (some [(8 : Nat)]) (some "c1"))].map
            (fun p => AttrPage.resp p.1 p.2)
          ++ AttrPage.resp 400 (AttrBody.mk (some [99]) (some "c2")) :: [])
      = some (.done [8], 2) := by
  have h := attribution_http_400_is_clean_termination Nat
    [(200, AttrBody.mk (some [8]) (some "c1"))]
    (AttrBody.mk (some [99]) (some "c2")) []
    (by intro p hp
        simp only [List.mem_singleton] at hp
        subst hp
        exact ⟨by omega, "c1", rfl, by decide⟩)
  simpa using h

end AmazonAds

namespace AmazonAds

/-- C10: constructing the Amazon fetcher never rejects a region code —
`initBaseUrl` is total — and any region string outside
`{"NA", "EU", "FE"}` silently selects the NA base URL, while each of the
three known codes selects its own fixed base URL. -/
theorem region_selection_defaults_to_na :
    (∀ region : String, region ≠ "NA" → region ≠ "EU" → region ≠ "FE" →
      initBaseUrl region = some "https://advertising-api.amazon.com") ∧
    initBaseUrl "NA" = some "https://advertising-api.amazon.com" ∧
    initBaseUrl "EU" = some "https://advertising-api-eu.amazon.com" ∧
    initBaseUrl "FE" = some "https://advertising-api-fe.amazon.com" := by
  refine ⟨?_, rfl, rfl, rfl⟩
  intro region h1 h2 h3
  simp [initBaseUrl, REGION_URLS, h1, h2, h3]

/-- Witness for C10: the unknown region string "XX" selects the NA base
URL. -/
theorem region_selection_defaults_witness :
    initBaseUrl "XX" = some "https://advertising-api.amazon.com" :=
  region_selection_defaults_to_na.1 "XX" (by decide) (by decide) (by decide)

end AmazonAds

namespace BingAds

/-- Helper for C3: when no scripted poll reply ever carries status
`"Success"` or `"Error"`, the poll loop always ends in timeout, from any
elapsed time and poll count. -/
theorem pollLoop_pending_times_out (script : Nat → PollReply)
    (h : ∀ k, (script k).status ≠ some "Success" ∧
      (script k).status ≠ some "Error")
    (maxWait elapsed n : Nat) :
    (pollLoop script maxWait elapsed n).1 = PollOutcome.timedOut := by
  rw [pollLoop]
  split
  next hlt =>
    simp only
    rw [if_neg (h n).1, if_neg (h n).2]
    exact pollLoop_pending_times_out script h maxWait
      (elapsed + (script n).duration + 10) (n + 1)
  next => rfl
termination_by maxWait - elapsed
decreasing_by simp_wf; omega

/-- C3: the poll loop compares elapsed wall-clock time with `maxWait`
before issuing each poll, so (a) a budget already expired at loop entry
(for example `maxWait = 0`, or any `maxWait` at most the time already
elapsed) performs zero polls and times out immediately, and (b) whenever
no poll within the budget ever returns a `Success` or `Error` status,
the run ends in the timeout that `get_performance_report` raises as
`TimeoutError`. -/
theorem poll_loop_checks_budget_before_polling :
    (∀ (script : Nat → PollReply) (maxWait elapsed : Nat),
      maxWait ≤ elapsed →
      pollLoop script maxWait elapsed 0 = (PollOutcome.timedOut, 0)) ∧
    (∀ (script : Nat → PollReply) (maxWait elapsed n : Nat),
      (∀ k, (script k).status ≠ some "Success" ∧
        (script k).status ≠ some "Error") →
      (pollLoop script maxWait elapsed n).1 = PollOutcome.timedOut) := by
  constructor
  · intro script maxWait elapsed hle
    rw [pollLoop]
    rw [dif_neg (by omega)]
  · intro script maxWait elapsed n h
    exact pollLoop_pending_times_out script h maxWait elapsed n

/-- Witness for C3: with a constant `"Pending"` reply script, a zero
budget performs zero polls and times out at once, and a 25-unit budget
(each poll taking 3 units plus the fixed 10-unit sleep) also ends in
timeout. -/
theorem poll_loop_budget_witness :
    pollLoop (fun _ => ⟨3, some "Pending", none⟩) 0 0 0
      = (PollOutcome.timedOut, 0) ∧
    (pollLoop (fun _ => ⟨3, some "Pending", none⟩) 25 0 0).1
      = PollOutcome.timedOut := by
  constructor
  · exact poll_loop_checks_budget_before_polling.1 _ 0 0 (by omega)
  · exact poll_loop_checks_budget_before_polling.2 _ 25 0 0
      (fun k => ⟨by simp, by simp⟩)

end BingAds

namespace BingAds

open AmazonAds (TokenResp)

/-- C5, evaluated at the failing input: when the token endpoint answers
with a success status but no `access_token` field, Bing's
`get_access_token` raises (a `KeyError`), but Amazon's
`refresh_access_token` returns `None` as a normal result instead of
raising — contradicting the claim (and the function's own `-> str`
annotation).  On a non-success status both raise, as the claim states. -/
theorem token_missing_field_divergence :
    AmazonAds.refresh_access_token none (.ok ⟨200, none⟩)
      = (.ok none, none, 1) ∧
    AmazonAds.refresh_access_token none (.ok ⟨500, some "t"⟩)
      = (.error (), none, 1) ∧
    get_access_token none (.ok ⟨200, none⟩) = (.error (), none, 1) ∧
    get_access_token none (.ok ⟨500, some "t"⟩) = (.error (), none, 1) := by
  refine ⟨rfl, ?_, rfl, ?_⟩ <;>
    simp [AmazonAds.refresh_access_token, get_access_token, acquireToken,
      AmazonAds.isErrStatus]

/-- C6, evaluated at the failing input: when the submit endpoint answers
with a success status but no `ReportRequestId`, `submit_performance_report`
returns `None` as a normal result instead of raising a submission error —
contradicting the claim (and the function's own `-> str` annotation).  On
a non-success status or a raised request it does fail, as the claim
states. -/
theorem submit_missing_job_id_returns_none :
    submit_performance_report (.ok ⟨200, none⟩) = .ok none ∧
    submit_performance_report (.ok ⟨500, some "id"⟩) = .error () ∧
    submit_performance_report (.error ()) = .error () := by
  refine ⟨rfl, ?_, rfl⟩
  simp [submit_performance_report, AmazonAds.isErrStatus]

/-- Counterexample to C7: with a token already acquired and cached
(`self.access_token = "cached"`), a further call to Amazon's
`refresh_access_token` still issues one network call (not zero) and
returns the endpoint's fresh value, not the cached bearer value —
the function never consults the cache. -/
theorem amazon_refresh_ignores_cache :
    AmazonAds.refresh_access_token (some "cached") (.ok ⟨200, some "fresh"⟩)
      = (.ok (some "fresh"), some "fresh", 1) ∧
    (1 : Nat) ≠ 0 ∧
    some "fresh" ≠ some "cached" := by
  refine ⟨rfl, by decide, by decide⟩

/-- C7 as amended: Bing's `get_access_token` caches — once a (non-empty)
token is held, every subsequent call returns the cached bearer value
unchanged and issues no network call; Amazon's `refresh_access_token`,
by contrast, issues exactly one network call on every invocation
regardless of the cached state (the Amazon run stays at one
token-endpoint call only because `fetch_all_data` invokes it once). -/
theorem token_caching_amended :
    (∀ (t : String) (endpoint : Except Unit TokenResp), t ≠ "" →
      get_access_token (some t) endpoint = (.ok t, some t, 0)) ∧
    (∀ (st : Option String) (endpoint : Except Unit TokenResp),
      (AmazonAds.refresh_access_token st endpoint).2.2 = 1) := by
  constructor
  · intro t endpoint h
    simp [get_access_token, h]
  · intro st endpoint
    cases endpoint with
    | error e => rfl
    | ok r =>
      simp only [AmazonAds.refresh_access_token]
      split <;> rfl

/-- Witness for the amended C7: with `"tok"` cached, Bing's getter
returns it with zero network calls even when the scripted endpoint would
fail; a fresh Amazon refresh performs exactly one network call. -/
theorem token_caching_witness :
    get_access_token (some "tok") (.error ()) = (.ok "tok", some "tok", 0) ∧
    (AmazonAds.refresh_access_token none (.ok ⟨200, some "fresh"⟩)).2.2
      = 1 :=
  ⟨token_caching_amended.1 "tok" (.error ()) (by decide),
   token_caching_amended.2 none (.ok ⟨200, some "fresh"⟩)⟩

end BingAds

namespace BingAds

/-- Counterexample to C4: a failure of the (non-token) accounts call for
one user aborts the entire run — `get_accounts` is called outside any
`try` in `extract_all` — so a token-acquisition failure is not the only
failure that aborts the whole run. -/
theorem accounts_failure_aborts_whole_run :
    extract_all accountsFailEnv true = .error .httpErr ∧
    CallErr.httpErr ≠ CallErr.tokenErr :=
  ⟨rfl, by decide⟩

/-- Helper for C4: when every accounts call succeeds, the user loop
never aborts — campaign and performance failures are absorbed inside
`processAccount`. -/
theorem foldlM_processUser_ok {α β : Type} (env : BingEnv α β) (incl : Bool)
    (h : ∀ uid, ∃ as, env.accounts uid = .ok as) :
    ∀ (us : List BUser) (acc : ExtractResult α β),
      ∃ r, List.foldlM (processUser env incl) acc us = .ok r := by
  intro us
  induction us with
  | nil => intro acc; exact ⟨acc, rfl⟩
  | cons u us ih =>
    intro acc
    have hstep : ∃ acc', processUser env incl acc u = .ok acc' := by
      cases hu : u.id with
      | none => exact ⟨acc, by simp [processUser, hu]⟩
      | some uid =>
        by_cases h0 : uid = 0
        · exact ⟨acc, by simp [processUser, hu, h0]⟩
        · obtain ⟨as, has⟩ := h uid
          exact ⟨as.foldl (processAccount env incl)
              { acc with accounts := acc.accounts ++ as },
            by simp [processUser, hu, h0, has]⟩
    obtain ⟨acc', hacc'⟩ := hstep
    obtain ⟨r, hr⟩ := ih acc'
    refine ⟨r, ?_⟩
    rw [List.foldlM_cons, hacc']
    exact hr

/-- C4 as amended: a failure fetching campaigns or running the
performance-report workflow for one entity is caught and logged and
extraction continues, so every other entity's results are complete and
only the failing entity's sub-collection is absent, and a
token-acquisition failure aborts the whole run — but token failure is
not the ONLY fatal one: a failure enumerating a user's accounts (or the
users themselves) also aborts the entire run.  Part three shows the
containment: with accounts A, B, C where only B's campaign fetch fails,
the result holds A's and C's campaigns in full and nothing of B's. -/
theorem entity_failure_containment_amended :
    (∀ (α β : Type) (env : BingEnv α β) (incl : Bool),
      env.users = .error .tokenErr →
      extract_all env incl = .error .tokenErr) ∧
    (∀ (α β : Type) (env : BingEnv α β) (incl : Bool) (us : List BUser),
      env.users = .ok us →
      (∀ uid, ∃ as, env.accounts uid = .ok as) →
      ∃ r, extract_all env incl = .ok r) ∧
    (∀ (α : Type) (la lc : List α),
      extract_all (triEnv la lc) false
        = .ok ⟨[⟨some 1⟩],
            [⟨some 10, some 7, some "A"⟩, ⟨some 20, some 7, some "B"⟩,
             ⟨some 30, some 7, some "C"⟩],
            la.map (fun c => (10, 7, c)) ++ lc.map (fun c => (30, 7, c)),
            []⟩) := by
  refine ⟨?_, ?_, ?_⟩
  · intro α β env incl h
    simp [extract_all, h]
  · intro α β env incl us husers h
    unfold extract_all
    rw [husers]
    exact foldlM_processUser_ok env incl h us ⟨us, [], [], []⟩
  · intro α la lc
    rfl

/-- Witness for the amended C4: a token failure aborts the run; the
three-account containment environment completes normally. -/
theorem entity_failure_containment_witness :
    extract_all (BingEnv.mk (.error .tokenErr) (fun _ => .ok [])
        (fun _ _ => .ok ([] : List Nat)) (fun _ => .ok ([] : List Nat)))
        true
      = .error .tokenErr ∧
    ∃ r, extract_all (triEnv [(5 : Nat)] [6]) false = .ok r := by
  constructor
  · exact entity_failure_containment_amended.1 Nat Nat _ true rfl
  · refine entity_failure_containment_amended.2.1 Nat Nat
      (triEnv [5] [6]) false [⟨some 1⟩] rfl ?_
    intro uid
    by_cases h : uid = 1 <;> simp [triEnv, h]

end BingAds

namespace BingAds

/-- Helper: a list whose first two elements are known. -/
theorem take_two_cons {l : List Nat} {a b : Nat} (h : l.take 2 = [a, b]) :
    ∃ t, l = a :: b :: t := by
  match l with
  | [] => simp at h
  | [x] => simp at h
  | x :: y :: ys =>
    have hx : (x :: y :: ys).take 2 = [x, y] := rfl
    rw [hx] at h
    simp only [List.cons.injEq] at h
    obtain ⟨rfl, rfl, -⟩ := h
    exact ⟨ys, rfl⟩

/-- Helper: the first byte of a UTF-8 character encoding is either an
ASCII byte (below `0x80`, in which case it is the whole encoding) or a
lead byte (at least `0xC0`); it is never a continuation byte. -/
theorem utf8EncodeChar_head (c : Char) :
    ∃ b t, utf8EncodeChar c = b :: t ∧
      ((b < 0x80 ∧ t = []) ∨ 0xC0 ≤ b) := by
  simp only [utf8EncodeChar]
  split
  next h => exact ⟨c.toNat, [], rfl, Or.inl ⟨h, rfl⟩⟩
  next h =>
    split
    next h2 => exact ⟨_, _, rfl, Or.inr (by omega)⟩
    next h2 =>
      split
      next h3 => exact ⟨_, _, rfl, Or.inr (by omega)⟩
      next h3 => exact ⟨_, _, rfl, Or.inr (by omega)⟩

/-- Helper: the first byte of a UTF-8 encoded text is never a
continuation byte. -/
theorem utf8Encode_head (cs : List Char) (b : Nat) (bs : List Nat)
    (h : utf8Encode cs = b :: bs) : b < 0x80 ∨ 0xC0 ≤ b := by
  cases cs with
  | nil => simp [utf8Encode] at h
  | cons c cs' =>
    obtain ⟨b', t, he, hb⟩ := utf8EncodeChar_head c
    simp only [utf8Encode, he, List.cons_append] at h
    obtain ⟨rfl, -⟩ := List.cons.injEq .. |>.mp h
    rcases hb with ⟨hlt, -⟩ | hge
    · exact Or.inl hlt
    · exact Or.inr hge

/-- Helper: no UTF-8 encoded text starts with the gzip magic bytes
`1f 8b` — `0x1f` can only open a one-byte character, and the following
byte then opens a character, so it cannot be the continuation byte
`0x8b`.  Hence the raw (not gzip-compressed) download payload of a text
always fails the gzip magic check and falls back to plain decoding. -/
theorem utf8Encode_no_gzip_magic (cs : List Char) :
    (utf8Encode cs).take 2 ≠ gzipMagic := by
  intro h
  rw [show gzipMagic = [0x1f, 0x8b] from rfl] at h
  obtain ⟨t, ht⟩ := take_two_cons h
  cases cs with
  | nil => simp [utf8Encode] at ht
  | cons c cs' =>
    obtain ⟨b', t', he, hb⟩ := utf8EncodeChar_head c
    simp only [utf8Encode, he, List.cons_append] at ht
    obtain ⟨hb31, hrest⟩ := List.cons.injEq .. |>.mp ht
    rcases hb with ⟨-, rfl⟩ | hge
    · simp only [List.nil_append] at hrest
      rcases utf8Encode_head cs' _ _ hrest with h1 | h1 <;> omega
    · omega

/-- C8: for every underlying text, downloading and decoding the report
yields the identical result whether the payload is the gzip compression
of the text's bytes or the raw bytes themselves: the gzip path
decompresses to the same bytes that the raw path reaches by the
`BadGzipFile` fallback, and both then decode as BOM-aware UTF-8 CSV with
a header row, one record per data row in row order. -/
theorem gzip_and_plain_payloads_decode_identically (text : List Char) :
    download_report (gzipCompress (utf8Encode text))
      = download_report (utf8Encode text) := by
  unfold download_report
  have h1 : gzipDecompress (gzipCompress (utf8Encode text))
      = .ok (utf8Encode text) := rfl
  have h2 : gzipDecompress (utf8Encode text) = .error () := by
    unfold gzipDecompress
    rw [if_neg (utf8Encode_no_gzip_magic text)]
  rw [h1, h2]

end BingAds
